import Mathlib

/-!
Verification of the tick-driven server core in `src/examples/cow_sphere.rs`
(repository Kevin-Konradi/valence).

The development shallowly embeds the code at three levels of detail:

* an admission-counter model of the `AtomicUsize` field `Game.player_count`
  and the two atomic updates performed on it (`fetch_update` in
  `Game::update` lines 102-107, `fetch_sub` at line 151);
* a session-lifecycle model of the `server.clients.retain` closure
  (`Game::update` lines 100-167): admission, identity-keyed entity
  insertion, roster mirroring, disconnect teardown and event draining;
* an event-dispatch model of `client_event_boilerplate` (lines 227-341)
  over a client/entity state record, and a real-valued model of
  `fibonacci_spiral` (lines 212-225) and the decorative-formation update
  (lines 170-207).

Machine integers (`usize`) are modelled as `Nat` with explicit reduction
modulo `2 ^ 64` where the code can wrap.  Floating-point (`f64`/`f32`)
quantities that the dispatch code merely copies are modelled as rationals;
the trigonometric formation code is modelled over the reals.
-/

namespace CowSphere

/-! ## Admission counter (`Game.player_count`, an `AtomicUsize`) -/

/-- `const MAX_PLAYERS: usize = 10;` (line 45). -/
def MAX_PLAYERS : Nat := 10

/-- Number of values of `usize` on the 64-bit targets the server runs on. -/
def USIZE : Nat := 2 ^ 64

/-- The admission attempt: `player_count.fetch_update(.., |count|
(count < MAX_PLAYERS).then_some(count + 1))` (lines 102-107).  `none`
models `Err` (no mutation), `some n` models `Ok` with `n` the new value.
This is the spec's `try_admit`. -/
def acquireSlot (count : Nat) : Option Nat :=
  if count < MAX_PLAYERS then some (count + 1) else none

/-- The admission release: `player_count.fetch_sub(1, SeqCst)` (line 151).
`fetch_sub` on `AtomicUsize` wraps on underflow, so the successor value is
`(count - 1) mod 2 ^ 64`, written here over `Nat`.  This is the spec's
`release`. -/
def releaseSlot (count : Nat) : Nat :=
  (count + (USIZE - 1)) % USIZE

/-- One atomic operation on the admission counter.  The two contexts that
touch the counter (the connect path and the disconnect path of the
`retain` closure) each perform a single atomic read-modify-write, so an
arbitrary concurrent interleaving is a sequence of these operations. -/
inductive AdmissionOp
  | acquire
  | release
deriving DecidableEq

/-- Effect of one atomic operation on the counter value.  A failed
`acquire` (counter at capacity) leaves the counter unchanged, exactly as
`fetch_update` returning `Err` does. -/
def admissionStep (count : Nat) : AdmissionOp → Nat
  | .acquire => (acquireSlot count).getD count
  | .release => releaseSlot count

/-- The sequence of counter values observed after each operation of an
interleaving. -/
def admissionTrace (count : Nat) : List AdmissionOp → List Nat
  | [] => []
  | op :: ops =>
      let c1 := admissionStep count op
      c1 :: admissionTrace c1 ops

/-- An interleaving is valid for this program when every `release` is
performed on behalf of a previously admitted session, i.e. the counter is
positive at that point (`Game::update` only calls `fetch_sub` for a client
that was earlier admitted by a successful `fetch_update`). -/
def validAdmissionOps (count : Nat) : List AdmissionOp → Bool
  | [] => true
  | .acquire :: ops => validAdmissionOps (admissionStep count .acquire) ops
  | .release :: ops => count != 0 && validAdmissionOps (admissionStep count .release) ops

/-! ## Session lifecycle (`server.clients.retain` closure, lines 100-167)

The registry state carries exactly what the lifecycle claims are about:
the admission counter, the uuid-keyed player entities
(`server.entities`, each entry `(entity id, uuid)`), and the roster of
uuids mirrored into the player list (`server.player_lists`).  The
decorative cow entities are uuid-less and never touched by this part of
the code, so they are not part of this registry view. -/

structure SrvState where
  playerCount : Nat
  nextEntityId : Nat
  entities : List (Nat × Nat)
  roster : List Nat
deriving DecidableEq

/-- One client session as the `retain` closure sees it: its uuid, whether
`created_this_tick()` holds, the transport-set `is_disconnected()` flag,
the bound entity id (`client.state : EntityId`) and the number of input
events pending in its queue. -/
structure Session where
  uuid : Nat
  createdThisTick : Bool
  disconnected : Bool
  state : Nat
  pendingEvents : Nat
deriving DecidableEq

/-- The two user-visible disconnect reasons of `Game::update`:
`serverFull` is the text "The server is full!" (line 109, the spec's
"server is full") and `conflictingUuid` is the text "Conflicting UUID"
(line 119, the spec's "conflicting identity"). -/
inductive DisconnectReason
  | serverFull
  | conflictingUuid
deriving DecidableEq

/-- Outcome of running the `retain` closure body on one client:
the updated registry state, the updated session, whether the closure
returned `true` (client kept in the map), the disconnect reason emitted by
this closure if any, and how many queued events were drained. -/
structure TickResult where
  server : SrvState
  client : Session
  retained : Bool
  reason : Option DisconnectReason
  eventsProcessed : Nat
deriving DecidableEq

/-- `server.entities.insert_with_uuid(EntityKind::Player, uuid, ())`
(lines 113-116): `none` when an entity with this uuid already exists
(no mutation), otherwise a fresh id together with the updated registry. -/
def insert_with_uuid (s : SrvState) (uuid : Nat) : Option (Nat × SrvState) :=
  if s.entities.any (fun en => en.2 == uuid) then none
  else some (s.nextEntityId,
    { s with nextEntityId := s.nextEntityId + 1,
             entities := (s.nextEntityId, uuid) :: s.entities })

/-- Lines 150-167 of the closure, reached by every client that survived
the connect block: on `is_disconnected()` release the admission slot,
remove the roster entry and the backing entity and drop the client
(lines 150-158); otherwise drain the whole event queue and keep it
(lines 160-167). -/
def handleConnected (s : SrvState) (c : Session) : TickResult :=
  if c.disconnected then
    { server := { s with
        playerCount := releaseSlot s.playerCount,
        roster := s.roster.filter (fun u => u != c.uuid),
        entities := s.entities.filter (fun en => en.1 != c.state) },
      client := c, retained := false, reason := none, eventsProcessed := 0 }
  else
    { server := s, client := { c with pendingEvents := 0 }, retained := true,
      reason := none, eventsProcessed := c.pendingEvents }

/-- The whole `retain` closure body (lines 100-167).  For a client created
this tick: admission first (reject with `serverFull` on a full counter,
lines 102-111), then identity-keyed entity insertion (reject with
`conflictingUuid` when the uuid already exists, lines 113-122 — note the
code does not decrement `player_count` on this path), then binding of the
entity id and roster insertion (lines 124-147), after which the client
falls through to the disconnect check and event drain shared with
established clients. -/
def processClient (s : SrvState) (c : Session) : TickResult :=
  if c.createdThisTick then
    match acquireSlot s.playerCount with
    | none =>
        { server := s, client := c, retained := false,
          reason := some DisconnectReason.serverFull, eventsProcessed := 0 }
    | some n =>
        let s1 := { s with playerCount := n }
        match insert_with_uuid s1 c.uuid with
        | none =>
            { server := s1, client := c, retained := false,
              reason := some DisconnectReason.conflictingUuid, eventsProcessed := 0 }
        | some r =>
            handleConnected { r.2 with roster := c.uuid :: r.2.roster }
              { c with state := r.1 }
  else handleConnected s c

/-- A registry already holding the entity of an admitted session with
uuid `77`, with the admission counter at `1` for that session. -/
def conflictServer : SrvState :=
  { playerCount := 1, nextEntityId := 5, entities := [(3, 77)], roster := [77] }

/-- A second session connecting this tick with the same uuid `77`. -/
def conflictSession : Session :=
  { uuid := 77, createdThisTick := true, disconnected := false,
    state := 0, pendingEvents := 0 }

/-! ## Event dispatch (`client_event_boilerplate`, lines 227-341)

Floating-point payloads (`f64` positions, `f32` angles) are only copied by
this code, never computed with, so they are modelled as rationals. -/

/-- Scalar standing in for the `f64`/`f32` payloads the dispatcher copies. -/
abbrev F := Rat

structure Vec3 where
  x : F
  y : F
  z : F
deriving DecidableEq

/-- `valence::entity::types::Pose`; the dispatcher only ever tests for and
writes `Standing` and `Sneaking`, the remaining variants are carried so
that the no-op branches are honest. -/
inductive Pose
  | Standing
  | FallFlying
  | Sleeping
  | Swimming
  | SpinAttack
  | Sneaking
  | LongJumping
  | Dying
deriving DecidableEq

/-- The `displayed_skin_parts` bit-flag accessors used at lines 245-251. -/
structure SkinParts where
  cape : Bool
  jacket : Bool
  leftSleeve : Bool
  rightSleeve : Bool
  leftPantsLeg : Bool
  rightPantsLeg : Bool
  hat : Bool
deriving DecidableEq

/-- Player appearance/pose payload: the fields of the tracked player data
(and of the client's self view `client.player_mut()`) that the dispatcher
writes. -/
structure PlayerData where
  cape : Bool
  jacket : Bool
  leftSleeve : Bool
  rightSleeve : Bool
  leftPantsLeg : Bool
  rightPantsLeg : Bool
  hat : Bool
  mainArm : Nat
  pose : Pose
  sprinting : Bool
deriving DecidableEq

/-- `TrackedData`: the variant payload of an entity; `player` for
player-kind entities, `cow` for the decorative entities. -/
inductive TrackedData
  | player (d : PlayerData)
  | cow
deriving DecidableEq

/-- `valence::client::Hand`. -/
inductive Hand
  | main
  | off
deriving DecidableEq

/-- `*main_hand as u8` (lines 252 and 262): `Hand::Main = 0`,
`Hand::Off = 1`. -/
def handU8 : Hand → Nat
  | .main => 0
  | .off => 1

/-- `valence::entity::EntityEvent` variants pushed by the arm-swing
branch (lines 327-332). -/
inductive EntityEvent
  | swingMainHand
  | swingOffHand
deriving DecidableEq

/-- `valence::client::ClientEvent`, restricted to the payload fields the
dispatcher reads (the `SettingsChanged` fields matched with `..`, and the
payloads of the ignored variants, are omitted). -/
inductive ClientEvent
  | chatMessage
  | settingsChanged (viewDistance : Nat) (mainHand : Hand) (displayedSkinParts : SkinParts)
  | movePosition (position : Vec3) (onGround : Bool)
  | movePositionAndRotation (position : Vec3) (yaw : F) (pitch : F) (onGround : Bool)
  | moveRotation (yaw : F) (pitch : F) (onGround : Bool)
  | moveOnGround (onGround : Bool)
  | moveVehicle
  | startSneaking
  | stopSneaking
  | startSprinting
  | stopSprinting
  | startJumpWithHorse
  | stopJumpWithHorse
  | leaveBed
  | openHorseInventory
  | startFlyingWithElytra
  | armSwing (hand : Hand)
  | interactWithEntity
  | steerBoat
  | digging
deriving DecidableEq

/-- The mutable entity record as the dispatcher sees it. -/
structure EntityM where
  world : Nat
  position : Vec3
  yaw : F
  pitch : F
  headYaw : F
  onGround : Bool
  data : TrackedData
  events : List EntityEvent
deriving DecidableEq

/-- The mutable client record as the dispatcher sees it: the world the
session is in (`client.world()`), the subscription radius, the self view
(`client.player_mut()`) and the pending FIFO event queue (head = next
event popped by `client.pop_event()`). -/
structure ClientM where
  world : Nat
  viewDistance : Nat
  selfView : PlayerData
  events : List ClientEvent
deriving DecidableEq

/-- The eight writes shared by lines 245-252 and 255-262: the full
skin-part flag set plus the main-arm side, applied to one `PlayerData`. -/
def applySkinParts (p : PlayerData) (sp : SkinParts) (arm : Nat) : PlayerData :=
  { p with cape := sp.cape, jacket := sp.jacket,
           leftSleeve := sp.leftSleeve, rightSleeve := sp.rightSleeve,
           leftPantsLeg := sp.leftPantsLeg, rightPantsLeg := sp.rightPantsLeg,
           hat := sp.hat, mainArm := arm }

/-- The `match &event` body of `client_event_boilerplate`
(lines 233-336): effect of one event on the client and the entity. -/
def applyEvent (ev : ClientEvent) (c : ClientM) (e : EntityM) : ClientM × EntityM :=
  match ev with
  | .chatMessage => (c, e)
  | .settingsChanged vd mh sp =>
      let c1 := { c with viewDistance := vd,
                         selfView := applySkinParts c.selfView sp (handU8 mh) }
      let e1 :=
        match e.data with
        | .player p => { e with data := .player (applySkinParts p sp (handU8 mh)) }
        | _ => e
      (c1, e1)
  | .movePosition pos og => (c, { e with position := pos, onGround := og })
  | .movePositionAndRotation pos yaw pitch og =>
      (c, { e with position := pos, yaw := yaw, headYaw := yaw,
                   pitch := pitch, onGround := og })
  | .moveRotation yaw pitch og =>
      (c, { e with yaw := yaw, headYaw := yaw, pitch := pitch, onGround := og })
  | .moveOnGround og => (c, { e with onGround := og })
  | .moveVehicle => (c, e)
  | .startSneaking =>
      (c, match e.data with
          | .player p =>
              if p.pose = Pose.Standing then
                { e with data := .player { p with pose := Pose.Sneaking } }
              else e
          | _ => e)
  | .stopSneaking =>
      (c, match e.data with
          | .player p =>
              if p.pose = Pose.Sneaking then
                { e with data := .player { p with pose := Pose.Standing } }
              else e
          | _ => e)
  | .startSprinting =>
      (c, match e.data with
          | .player p => { e with data := .player { p with sprinting := true } }
          | _ => e)
  | .stopSprinting =>
      (c, match e.data with
          | .player p => { e with data := .player { p with sprinting := false } }
          | _ => e)
  | .startJumpWithHorse => (c, e)
  | .stopJumpWithHorse => (c, e)
  | .leaveBed => (c, e)
  | .openHorseInventory => (c, e)
  | .startFlyingWithElytra => (c, e)
  | .armSwing h =>
      (c, { e with events := e.events ++
              [match h with
               | .main => EntityEvent.swingMainHand
               | .off => EntityEvent.swingOffHand] })
  | .interactWithEntity => (c, e)
  | .steerBoat => (c, e)
  | .digging => (c, e)

/-- `client_event_boilerplate` (lines 227-341): pop one event (`none` on
an empty queue — note the `?` at line 231 returns before the
`entity.set_world` at line 338 runs), apply its effect, then re-assign the
entity's world from the client's world and return the event. -/
def client_event_boilerplate (c : ClientM) (e : EntityM) :
    Option ClientEvent × ClientM × EntityM :=
  match c.events with
  | [] => (none, c, e)
  | ev :: rest =>
      let r := applyEvent ev { c with events := rest } e
      (some ev, r.1, { r.2 with world := r.1.world })

/-- The drain loop `while client_event_boilerplate(client, entity)
.is_some() {}` (line 165), run with fuel.  Each `some` iteration consumes
exactly one queued event and no handler enqueues client events, so fuel
equal to the initial queue length makes the model and the loop agree: when
the fuel runs out the queue is empty and the one further call the loop
would make returns `none` without touching any state. -/
def drainAux : Nat → ClientM → EntityM → ClientM × EntityM
  | 0, c, e => (c, e)
  | fuel + 1, c, e =>
      match client_event_boilerplate c e with
      | (none, c1, e1) => (c1, e1)
      | (some _, c1, e1) => drainAux fuel c1 e1

/-- Draining a client's whole queue within one tick. -/
def drainEvents (c : ClientM) (e : EntityM) : ClientM × EntityM :=
  drainAux c.events.length c e

/-- The tracked player payload of an entity, when it is player-kind. -/
def playerPayload (e : EntityM) : Option PlayerData :=
  match e.data with
  | .player p => some p
  | _ => none

/-- The pose stored in an entity's tracked player payload. -/
def playerPose (e : EntityM) : Option Pose :=
  (playerPayload e).map (fun p => p.pose)

/-- Projection of the eight fields written by the settings-changed branch:
the seven skin-part flags and the main-arm side. -/
def skinFieldsOf (p : PlayerData) :
    Bool × Bool × Bool × Bool × Bool × Bool × Bool × Nat :=
  (p.cape, p.jacket, p.leftSleeve, p.rightSleeve,
   p.leftPantsLeg, p.rightPantsLeg, p.hat, p.mainArm)

/-- A neutral player payload for concrete test states. -/
def basePlayer : PlayerData :=
  { cape := false, jacket := false, leftSleeve := false, rightSleeve := false,
    leftPantsLeg := false, rightPantsLeg := false, hat := false,
    mainArm := 1, pose := Pose.Standing, sprinting := false }

/-- A client in world `1` whose event queue is empty this tick. -/
def emptyQueueClient : ClientM :=
  { world := 1, viewDistance := 2, selfView := basePlayer, events := [] }

/-- A backing entity whose recorded world (`0`) differs from its
client's current world (`1`). -/
def staleWorldEntity : EntityM :=
  { world := 0, position := { x := 0, y := 0, z := 0 }, yaw := 0, pitch := 0,
    headYaw := 0, onGround := false, data := .player basePlayer, events := [] }

/-! ## Formation (`fibonacci_spiral`, lines 212-225, and the decorative
update, lines 170-207)

The `f64` trigonometry is idealised over the real numbers. -/

/-- `TAU = 2π` (`std::f64::consts::TAU`). -/
noncomputable def TAU : ℝ := 2 * Real.pi

/-- `let golden_ratio = (1.0 + 5_f64.sqrt()) / 2.0;` (line 214). -/
noncomputable def golden : ℝ := (1 + Real.sqrt 5) / 2

/-- Body of the closure at lines 213-224 for index `i` out of `n`.  Rust's
`%` on `f64` is `fmod`, which on the nonnegative quantity
`i as f64 / golden_ratio` agrees with `Int.fract`. -/
noncomputable def spiralPoint (n i : ℕ) : ℝ × ℝ × ℝ :=
  let x := Int.fract ((i : ℝ) / golden)
  let y := (i : ℝ) / (n : ℝ)
  let theta := x * TAU
  let phi := Real.arccos (1 - 2 * y)
  (Real.cos theta * Real.sin phi, Real.sin theta * Real.sin phi, Real.cos phi)

/-- `fn fibonacci_spiral(n: usize)` (lines 212-225), with the iterator
materialised as a list. -/
noncomputable def fibonacci_spiral (n : ℕ) : List (ℝ × ℝ × ℝ) :=
  (List.range n).map (spiralPoint n)

/-- The base-direction closed form exactly as the spec words it
(§4.5 step 1): `x = (i / φ) mod 1` with `φ` the golden ratio,
`y = i / n`, `θ = x·2π`, `φ_polar = acos(1 − 2y)`, direction
`(cos θ·sin φ_polar, sin θ·sin φ_polar, cos φ_polar)`.  Stated as its own
definition so that the code-derived `fibonacci_spiral` can be compared
against it. -/
noncomputable def specBaseDirection (i n : ℕ) : ℝ × ℝ × ℝ :=
  let x := Int.fract ((i : ℝ) / golden)
  let y := (i : ℝ) / (n : ℝ)
  let theta := x * (2 * Real.pi)
  let phiPolar := Real.arccos (1 - 2 * y)
  (Real.cos theta * Real.sin phiPolar, Real.sin theta * Real.sin phiPolar,
   Real.cos phiPolar)

/-- Rotation of a vector about the x axis. -/
noncomputable def rotX (a : ℝ) (v : ℝ × ℝ × ℝ) : ℝ × ℝ × ℝ :=
  (v.1,
   Real.cos a * v.2.1 - Real.sin a * v.2.2,
   Real.sin a * v.2.1 + Real.cos a * v.2.2)

/-- Rotation of a vector about the y axis. -/
noncomputable def rotY (a : ℝ) (v : ℝ × ℝ × ℝ) : ℝ × ℝ × ℝ :=
  (Real.cos a * v.1 + Real.sin a * v.2.2,
   v.2.1,
   -(Real.sin a) * v.1 + Real.cos a * v.2.2)

/-- Rotation of a vector about the z axis. -/
noncomputable def rotZ (a : ℝ) (v : ℝ × ℝ × ℝ) : ℝ × ℝ × ℝ :=
  (Real.cos a * v.1 - Real.sin a * v.2.1,
   Real.sin a * v.1 + Real.cos a * v.2.1,
   v.2.2)

/-- Modelled from the spec: the compound rotation built by
`Mat3::rotation_x(..).rotated_y(..).rotated_z(..)` applied to a vector by
`p * rot` (lines 172-174 and 196; `vek`'s matrix code is not under
`src/`).  Per §4.5 step 2 the three axis rotations are applied in the
fixed order x then y then z. -/
noncomputable def rotXYZ (a b c : ℝ) (v : ℝ × ℝ × ℝ) : ℝ × ℝ × ℝ :=
  rotZ c (rotY b (rotX a v))

/-- Two-argument arctangent, the mathematical meaning of `f64::atan2` /
`f32::atan2`. -/
noncomputable def atan2 (y x : ℝ) : ℝ :=
  if 0 < x then Real.arctan (y / x)
  else if x < 0 then
    if 0 ≤ y then Real.arctan (y / x) + Real.pi
    else Real.arctan (y / x) - Real.pi
  else
    if 0 < y then Real.pi / 2
    else if y < 0 then -(Real.pi / 2)
    else 0

/-- `to_degrees`. -/
noncomputable def degrees (a : ℝ) : ℝ := a * 180 / Real.pi

/-- `.normalized()` on a 3-vector. -/
noncomputable def normalize3 (v : ℝ × ℝ × ℝ) : ℝ × ℝ × ℝ :=
  let n := Real.sqrt (v.1 ^ 2 + v.2.1 ^ 2 + v.2.2 ^ 2)
  (v.1 / n, v.2.1 / n, v.2.2 / n)

/-- Modelled from the spec: `valence::util::to_yaw_and_pitch` (line 16;
not under `src/`).  Per §4.5 step 3 it turns a normalized look direction
into look-at yaw and pitch angles in degrees. -/
noncomputable def toYawAndPitch (d : ℝ × ℝ × ℝ) : ℝ × ℝ :=
  (degrees (atan2 d.2.2 d.1) - 90, -(degrees (Real.arcsin d.2.1)))

/-- Lines 195-206 for one decorative entity: its base direction `p` is
rotated by the compound rotation, scaled by the breathing radius and
translated to the formation center `(0.5, SPAWN_POS.y + 2, 0.5)` =
`(0.5, 102, 0.5)`; body yaw comes from the rotated unscaled direction and
head yaw/pitch from the look-at toward `eye`.  Returns
`(position, yaw, pitch, head yaw)`. -/
noncomputable def cowUpdate (time : ℝ) (eye : ℝ × ℝ × ℝ) (p : ℝ × ℝ × ℝ) :
    (ℝ × ℝ × ℝ) × ℝ × ℝ × ℝ :=
  let rotated := rotXYZ (time * TAU * 0.1) (time * TAU * 0.2) (time * TAU * 0.3) p
  let radius := 6 + ((Real.sin (time * TAU / 2.5) + 1) / 2) * 10
  let transformed :=
    (rotated.1 * radius + 0.5, rotated.2.1 * radius + 102, rotated.2.2 * radius + 0.5)
  let yaw := degrees (atan2 rotated.2.2 rotated.1) - 90
  let look := toYawAndPitch (normalize3
    (eye.1 - transformed.1, eye.2.1 - transformed.2.1, eye.2.2 - transformed.2.2))
  (transformed, yaw, look.2, look.1)

/-- The formation loop at lines 188-207: the cow ids zipped with the base
directions, each given its update for this tick. -/
noncomputable def cowUpdates (cowIds : List ℕ) (time : ℝ) (eye : ℝ × ℝ × ℝ) :
    List (ℕ × ((ℝ × ℝ × ℝ) × ℝ × ℝ × ℝ)) :=
  (cowIds.zip (fibonacci_spiral cowIds.length)).map
    (fun ip => (ip.1, cowUpdate time eye ip.2))

/-- Lines 178-186: the reference player position is the first connected
client's position, defaulting to the zero vector when there is none, and
the eye position adds the hardcoded eye height `1.6` to its y
coordinate. -/
noncomputable def eyePosOf (clientPositions : List (ℝ × ℝ × ℝ)) : ℝ × ℝ × ℝ :=
  let p := clientPositions.head?.getD (0, 0, 0)
  (p.1, p.2.1 + 1.6, p.2.2)

/-! ## Further concrete states used by individual scenarios -/

/-- A registry with ten Active sessions: the admission counter at
capacity. -/
def fullServer : SrvState :=
  { playerCount := 10, nextEntityId := 20,
    entities := [(0, 50), (1, 51), (2, 52), (3, 53), (4, 54),
                 (5, 55), (6, 56), (7, 57), (8, 58), (9, 59)],
    roster := [50, 51, 52, 53, 54, 55, 56, 57, 58, 59] }

/-- An eleventh session connecting while the server is full. -/
def eleventhSession : Session :=
  { uuid := 99, createdThisTick := true, disconnected := false,
    state := 0, pendingEvents := 0 }

/-- A registry with three admitted sessions, two of them backed by the
entities and roster entries shown. -/
def activeServer : SrvState :=
  { playerCount := 3, nextEntityId := 9,
    entities := [(4, 42), (6, 43)], roster := [42, 43] }

/-- An established session (uuid `42`, entity `4`) whose transport just
reported it disconnected, with two events still queued. -/
def droppedSession : Session :=
  { uuid := 42, createdThisTick := false, disconnected := true,
    state := 4, pendingEvents := 2 }

/-- A session created this tick (fresh uuid `99`) whose transport already
reports it disconnected: it is admitted and bound at the top of the
`retain` closure and then found disconnected at the same tick's check. -/
def sameTickDropSession : Session :=
  { uuid := 99, createdThisTick := true, disconnected := true,
    state := 0, pendingEvents := 2 }

/-- A client in world `1` with one pending event this tick. -/
def oneEventClient : ClientM :=
  { world := 1, viewDistance := 2, selfView := basePlayer,
    events := [ClientEvent.chatMessage] }

/-- A concrete skin-part flag set for the settings-changed scenario. -/
def testSkinParts : SkinParts :=
  { cape := true, jacket := false, leftSleeve := true, rightSleeve := false,
    leftPantsLeg := true, rightPantsLeg := false, hat := true }

/-! ## Helper lemmas -/

theorem releaseSlot_of_pos {count : Nat} (h0 : 0 < count) (h1 : count < USIZE) :
    releaseSlot count = count - 1 := by
  have hU : USIZE = 18446744073709551616 := by norm_num [USIZE]
  rw [hU] at h1
  rw [releaseSlot, hU]
  omega

theorem releaseSlot_zero : releaseSlot 0 = USIZE - 1 := by
  have hU : USIZE = 18446744073709551616 := by norm_num [USIZE]
  rw [releaseSlot, hU]

theorem admissionTrace_le (ops : List AdmissionOp) :
    ∀ count, count ≤ MAX_PLAYERS → validAdmissionOps count ops = true →
      ∀ x ∈ admissionTrace count ops, x ≤ MAX_PLAYERS := by
  induction ops with
  | nil =>
      intro count _ _ x hx
      simp [admissionTrace] at hx
  | cons op ops ih =>
      intro count hle hv x hx
      cases op with
      | acquire =>
          rw [admissionTrace] at hx
          rw [validAdmissionOps] at hv
          have hstep : admissionStep count .acquire ≤ MAX_PLAYERS := by
            simp only [admissionStep, acquireSlot]
            split <;> simp <;> omega
          rcases List.mem_cons.mp hx with h | h
          · omega
          · exact ih _ hstep hv x h
      | release =>
          rw [admissionTrace] at hx
          rw [validAdmissionOps, Bool.and_eq_true] at hv
          have hpos : 0 < count := by
            rcases hv with ⟨h1, _⟩
            simp only [bne_iff_ne, ne_eq] at h1
            omega
          have hcU : count < USIZE := by
            have hM : MAX_PLAYERS = 10 := rfl
            have hU : (10 : Nat) < USIZE := by norm_num [USIZE]
            omega
          have hstep : admissionStep count .release ≤ MAX_PLAYERS := by
            simp only [admissionStep, releaseSlot_of_pos hpos hcU]
            omega
          rcases List.mem_cons.mp hx with h | h
          · omega
          · exact ih _ hstep hv.2 x h

theorem applyEvent_world (ev : ClientEvent) (c : ClientM) (e : EntityM) :
    (applyEvent ev c e).1.world = c.world := by
  cases ev <;> simp [applyEvent]

theorem applyEvent_client_events (ev : ClientEvent) (c : ClientM) (e : EntityM) :
    (applyEvent ev c e).1.events = c.events := by
  cases ev <;> simp [applyEvent]

theorem boilerplate_cons (c : ClientM) (e : EntityM) (ev : ClientEvent)
    (rest : List ClientEvent) (h : c.events = ev :: rest) :
    (client_event_boilerplate c e).1 = some ev ∧
    (client_event_boilerplate c e).2.1.world = c.world ∧
    (client_event_boilerplate c e).2.1.events = rest ∧
    (client_event_boilerplate c e).2.2.world = c.world := by
  simp [client_event_boilerplate, h, applyEvent_world, applyEvent_client_events]

theorem drainAux_world (fuel : Nat) :
    ∀ (c : ClientM) (e : EntityM), c.events.length = fuel → c.events ≠ [] →
      (drainAux fuel c e).1.world = c.world ∧
      (drainAux fuel c e).2.world = c.world := by
  induction fuel with
  | zero =>
      intro c e hlen hne
      exact absurd (List.length_eq_zero.mp hlen) hne
  | succ n ih =>
      intro c e hlen hne
      obtain ⟨ev, rest, hev⟩ : ∃ ev rest, c.events = ev :: rest := by
        cases hc : c.events with
        | nil => exact absurd hc hne
        | cons a l => exact ⟨a, l, rfl⟩
      have hb := boilerplate_cons c e ev rest hev
      obtain ⟨o, c1, e1, hcb⟩ :
          ∃ o c1 e1, client_event_boilerplate c e = (o, c1, e1) :=
        ⟨_, _, _, rfl⟩
      rw [hcb] at hb
      have ho : o = some ev := hb.1
      have hc1w : c1.world = c.world := hb.2.1
      have hc1e : c1.events = rest := hb.2.2.1
      have he1w : e1.world = c.world := hb.2.2.2
      rw [drainAux, hcb, ho]
      have hrestlen : rest.length = n := by
        rw [hev] at hlen
        simpa using hlen
      cases hrest : rest with
      | nil =>
          have : n = 0 := by rw [hrest] at hrestlen; simpa using hrestlen.symm
          subst this
          simpa [drainAux] using ⟨hc1w, he1w⟩
      | cons b l =>
          have hne1 : c1.events ≠ [] := by rw [hc1e, hrest]; simp
          have hlen1 : c1.events.length = n := by rw [hc1e]; exact hrestlen
          have := ih c1 e1 hlen1 hne1
          exact ⟨this.1.trans hc1w, this.2.trans hc1w⟩

/-! ## Claim theorems -/

/-- C1: evaluating the connect path at an identity conflict.  A session
whose admission succeeds but whose identity-keyed insertion returns `None`
is disconnected with the conflicting-identity reason, goes to Removed, and
the registry keeps exactly one entity for the identity — but the code does
NOT release the admission slot just taken: `Game::update` lines 113-122
return from the `retain` closure without the `fetch_sub` that the spec
requires, so the counter stays at its post-`try_admit` value (here `2`
instead of the pre-admission `1`). -/
theorem conflicting_uuid_keeps_slot :
    (processClient conflictServer conflictSession).reason =
        some DisconnectReason.conflictingUuid ∧
    (processClient conflictServer conflictSession).retained = false ∧
    (processClient conflictServer conflictSession).server.entities = [(3, 77)] ∧
    ((processClient conflictServer conflictSession).server.entities.filter
        (fun en => en.2 == 77)).length = 1 ∧
    conflictServer.playerCount = 1 ∧
    (processClient conflictServer conflictSession).server.playerCount = 2 := by
  decide

/-- C2 (amended): `release()` is `fetch_sub(1)` on an `AtomicUsize`
(line 151), which decrements modulo `2 ^ 64`: for a positive counter it
subtracts one, but at zero it wraps to `2 ^ 64 - 1` instead of saturating
at zero. -/
theorem release_wrapping_decrement (count : Nat) (h : count < USIZE) :
    releaseSlot count = if count = 0 then USIZE - 1 else count - 1 := by
  by_cases h0 : count = 0
  · simp [h0, releaseSlot_zero]
  · have hpos : 0 < count := Nat.pos_of_ne_zero h0
    simp [h0, releaseSlot_of_pos hpos h]

/-- Witness for C2's amended theorem at the concrete counter value `5`. -/
theorem release_wrapping_decrement_witness :
    5 < USIZE ∧ releaseSlot 5 = if (5 : Nat) = 0 then USIZE - 1 else 5 - 1 :=
  ⟨by decide, release_wrapping_decrement 5 (by decide)⟩

/-- C2 counterexample: calling release when the counter is already zero
does not leave it at zero — it wraps. -/
theorem release_at_zero_wraps : releaseSlot 0 ≠ 0 := by
  decide

/-- C3: for every interleaving of admission attempts and releases in
which each release is performed for a previously admitted session, the
counter — and with it the number of concurrently Active sessions —
never exceeds the capacity 10; an acquire succeeds exactly when the
observed count is strictly below capacity and then increments it by one;
and when a single slot remains, of two consecutive atomic acquire steps
the first succeeds and the second fails, so no two callers can both be
admitted for it. -/
theorem admission_capacity_invariant :
    MAX_PLAYERS = 10 ∧
    (∀ ops : List AdmissionOp, validAdmissionOps 0 ops = true →
      ∀ x ∈ admissionTrace 0 ops, x ≤ MAX_PLAYERS) ∧
    (∀ count, (acquireSlot count).isSome = true ↔ count < MAX_PLAYERS) ∧
    (∀ count, count < MAX_PLAYERS → acquireSlot count = some (count + 1)) ∧
    (∀ count, count + 1 = MAX_PLAYERS →
      acquireSlot count = some MAX_PLAYERS ∧
      acquireSlot (admissionStep count .acquire) = none) := by
  refine ⟨rfl, fun ops hv => admissionTrace_le ops 0 (by simp) hv, ?_, ?_, ?_⟩
  · intro count
    simp only [acquireSlot]
    split <;> simp_all
  · intro count h
    simp [acquireSlot, h]
  · intro count h
    have h1 : count < MAX_PLAYERS := by omega
    have h2 : acquireSlot count = some MAX_PLAYERS := by
      rw [acquireSlot, if_pos h1, h]
    refine ⟨h2, ?_⟩
    have h3 : admissionStep count .acquire = MAX_PLAYERS := by
      simp [admissionStep, h2]
    rw [h3, acquireSlot, if_neg (lt_irrefl MAX_PLAYERS)]

/-- Witness for C3 at the concrete interleaving acquire, acquire,
release, whose counter trace is `[1, 2, 1]`. -/
theorem admission_capacity_invariant_witness :
    validAdmissionOps 0 [AdmissionOp.acquire, AdmissionOp.acquire,
      AdmissionOp.release] = true ∧
    1 ∈ admissionTrace 0 [AdmissionOp.acquire, AdmissionOp.acquire,
      AdmissionOp.release] ∧
    1 ≤ MAX_PLAYERS :=
  ⟨by decide, by decide,
    admission_capacity_invariant.2.1
      [AdmissionOp.acquire, AdmissionOp.acquire, AdmissionOp.release]
      (by decide) 1 (by decide)⟩

/-- C4: a session connecting while the admission counter is at capacity
is rejected by `fetch_update`, disconnected with the server-full reason
and dropped, with the registry state — counter, entities and roster —
completely unchanged and no events processed. -/
theorem server_full_rejection (s : SrvState) (c : Session)
    (hnew : c.createdThisTick = true) (hfull : s.playerCount = MAX_PLAYERS) :
    (processClient s c).reason = some DisconnectReason.serverFull ∧
    (processClient s c).retained = false ∧
    (processClient s c).server = s ∧
    (processClient s c).eventsProcessed = 0 := by
  simp [processClient, acquireSlot, hnew, hfull]

/-- Witness for C4: a full ten-player registry rejecting an eleventh
session. -/
theorem server_full_rejection_witness :
    eleventhSession.createdThisTick = true ∧
    fullServer.playerCount = MAX_PLAYERS ∧
    (processClient fullServer eleventhSession).reason =
        some DisconnectReason.serverFull ∧
    (processClient fullServer eleventhSession).retained = false ∧
    (processClient fullServer eleventhSession).server = fullServer ∧
    (processClient fullServer eleventhSession).eventsProcessed = 0 :=
  ⟨rfl, rfl, server_full_rejection fullServer eleventhSession rfl rfl⟩

/-- C5: every session found disconnected at the tick's check — whether
established, or admitted and bound earlier in this very tick (the
hypothesis `reason = none` says the connect block emitted no rejection,
i.e. the session reached the line-150 check) — processes none of its
pending events that tick, and its admission slot, roster entry and
backing entity are all torn down within the same tick, the session being
dropped from the client map (no pending state carried forward).  For an
established session the counter drops by one; for a session admitted this
same tick the slot just taken is released again, so the counter returns
to its value before the tick. -/
theorem disconnect_same_tick_teardown (s : SrvState) (c : Session)
    (hdis : c.disconnected = true)
    (hreach : (processClient s c).reason = none) :
    (processClient s c).eventsProcessed = 0 ∧
    (processClient s c).retained = false ∧
    ((c.createdThisTick = false ∧ 0 < s.playerCount ∧ s.playerCount < USIZE) →
        (processClient s c).server.playerCount = s.playerCount - 1) ∧
    (c.createdThisTick = true →
        (processClient s c).server.playerCount = s.playerCount) ∧
    (processClient s c).server.roster.all (fun u => u != c.uuid) = true ∧
    (processClient s c).server.entities.all
        (fun en => en.1 != (processClient s c).client.state) = true := by
  by_cases hnew : c.createdThisTick = true
  · by_cases hlt : s.playerCount < MAX_PLAYERS
    · by_cases hany : s.entities.any (fun en => en.2 == c.uuid) = true
      · exfalso
        simp [processClient, hnew, acquireSlot, hlt, insert_with_uuid, hany] at hreach
      · have hrel : releaseSlot (s.playerCount + 1) = s.playerCount := by
          have h2 : s.playerCount + 1 < USIZE := by
            have hM : MAX_PLAYERS = 10 := rfl
            have hU : (11 : Nat) ≤ USIZE := by norm_num [USIZE]
            omega
          simpa using releaseSlot_of_pos (Nat.succ_pos s.playerCount) h2
        simp [processClient, hnew, acquireSlot, hlt, insert_with_uuid, hany,
          handleConnected, hdis, hrel, List.all_eq_true, List.mem_filter]
    · exfalso
      simp [processClient, hnew, acquireSlot, hlt] at hreach
  · have hnew2 : c.createdThisTick = false := by
      cases h : c.createdThisTick
      · rfl
      · exact absurd h hnew
    simp only [processClient, hnew2, Bool.false_eq_true, if_false,
      handleConnected, hdis, if_true]
    refine ⟨trivial, trivial, fun h => releaseSlot_of_pos h.2.1 h.2.2, ?_, ?_, ?_⟩
    · exact fun h => h.elim
    · simp [List.all_eq_true, List.mem_filter]
    · simp [List.all_eq_true, List.mem_filter]

/-- Witness for C5, exercising both teardown paths: an established
disconnected session with two queued events, and a session admitted and
found disconnected within the same tick. -/
theorem disconnect_same_tick_teardown_witness :
    (droppedSession.disconnected = true ∧
     (processClient activeServer droppedSession).reason = none ∧
     ((processClient activeServer droppedSession).eventsProcessed = 0 ∧
      (processClient activeServer droppedSession).retained = false ∧
      ((droppedSession.createdThisTick = false ∧ 0 < activeServer.playerCount ∧
          activeServer.playerCount < USIZE) →
        (processClient activeServer droppedSession).server.playerCount =
          activeServer.playerCount - 1) ∧
      (droppedSession.createdThisTick = true →
        (processClient activeServer droppedSession).server.playerCount =
          activeServer.playerCount) ∧
      (processClient activeServer droppedSession).server.roster.all
          (fun u => u != droppedSession.uuid) = true ∧
      (processClient activeServer droppedSession).server.entities.all
          (fun en => en.1 !=
            (processClient activeServer droppedSession).client.state) = true)) ∧
    (sameTickDropSession.disconnected = true ∧
     (processClient activeServer sameTickDropSession).reason = none ∧
     ((processClient activeServer sameTickDropSession).eventsProcessed = 0 ∧
      (processClient activeServer sameTickDropSession).retained = false ∧
      ((sameTickDropSession.createdThisTick = false ∧
          0 < activeServer.playerCount ∧ activeServer.playerCount < USIZE) →
        (processClient activeServer sameTickDropSession).server.playerCount =
          activeServer.playerCount - 1) ∧
      (sameTickDropSession.createdThisTick = true →
        (processClient activeServer sameTickDropSession).server.playerCount =
          activeServer.playerCount) ∧
      (processClient activeServer sameTickDropSession).server.roster.all
          (fun u => u != sameTickDropSession.uuid) = true ∧
      (processClient activeServer sameTickDropSession).server.entities.all
          (fun en => en.1 !=
            (processClient activeServer sameTickDropSession).client.state) =
        true)) :=
  ⟨⟨rfl, by decide,
    disconnect_same_tick_teardown activeServer droppedSession rfl (by decide)⟩,
   ⟨rfl, by decide,
    disconnect_same_tick_teardown activeServer sameTickDropSession rfl (by decide)⟩⟩

/-- C6 (amended): the world re-synchronization `entity.set_world
(client.world())` runs once per popped event, so after draining a
non-empty queue the backing entity's world equals the session's current
world (and the client's world is untouched by the drain); a tick whose
queue was already empty performs no re-synchronization, because
`client.pop_event()?` returns before line 338 is reached. -/
theorem drained_tick_world_sync (c : ClientM) (e : EntityM)
    (h : c.events ≠ []) :
    (drainEvents c e).2.world = c.world ∧
    (drainEvents c e).1.world = c.world := by
  have := drainAux_world c.events.length c e rfl h
  exact ⟨this.2, this.1⟩

/-- Witness for C6's amended theorem: one queued chat event re-syncs the
stale entity world `0` to the client world `1`. -/
theorem drained_tick_world_sync_witness :
    oneEventClient.events ≠ [] ∧
    (drainEvents oneEventClient staleWorldEntity).2.world =
        oneEventClient.world ∧
    (drainEvents oneEventClient staleWorldEntity).1.world =
        oneEventClient.world :=
  ⟨by decide, drained_tick_world_sync oneEventClient staleWorldEntity (by decide)⟩

/-- C6 counterexample: with an empty event queue the drained tick leaves
the entity's world (`0`) different from the session's world (`1`) — the
re-synchronization does not occur on an empty-queue tick. -/
theorem empty_tick_no_world_sync :
    (drainEvents emptyQueueClient staleWorldEntity).2.world ≠
      emptyQueueClient.world := by
  decide

/-- C7: processing a settings-changed event for a session whose backing
entity is player-kind writes the full skin-part flag set and the main-arm
side identically onto the client's self view and the entity's tracked
player payload: afterwards the two storage locations agree on all eight
fields, which equal the event's values. -/
theorem settings_changed_view_consistency (c : ClientM) (e : EntityM)
    (vd : Nat) (mh : Hand) (sp : SkinParts) (rest : List ClientEvent)
    (p : PlayerData) (hp : e.data = TrackedData.player p) :
    (playerPayload (client_event_boilerplate
        { c with events := ClientEvent.settingsChanged vd mh sp :: rest }
        e).2.2).map skinFieldsOf =
      some (skinFieldsOf (client_event_boilerplate
        { c with events := ClientEvent.settingsChanged vd mh sp :: rest }
        e).2.1.selfView) ∧
    skinFieldsOf (client_event_boilerplate
        { c with events := ClientEvent.settingsChanged vd mh sp :: rest }
        e).2.1.selfView =
      (sp.cape, sp.jacket, sp.leftSleeve, sp.rightSleeve, sp.leftPantsLeg,
       sp.rightPantsLeg, sp.hat, handU8 mh) := by
  simp [client_event_boilerplate, applyEvent, hp, playerPayload,
    skinFieldsOf, applySkinParts]

/-- Witness for C7 at a concrete client, player entity, skin-part set and
off main hand. -/
theorem settings_changed_view_consistency_witness :
    staleWorldEntity.data = TrackedData.player basePlayer ∧
    (playerPayload (client_event_boilerplate
        { emptyQueueClient with
            events := ClientEvent.settingsChanged 7 Hand.off testSkinParts :: [] }
        staleWorldEntity).2.2).map skinFieldsOf =
      some (skinFieldsOf (client_event_boilerplate
        { emptyQueueClient with
            events := ClientEvent.settingsChanged 7 Hand.off testSkinParts :: [] }
        staleWorldEntity).2.1.selfView) ∧
    skinFieldsOf (client_event_boilerplate
        { emptyQueueClient with
            events := ClientEvent.settingsChanged 7 Hand.off testSkinParts :: [] }
        staleWorldEntity).2.1.selfView =
      (testSkinParts.cape, testSkinParts.jacket, testSkinParts.leftSleeve,
       testSkinParts.rightSleeve, testSkinParts.leftPantsLeg,
       testSkinParts.rightPantsLeg, testSkinParts.hat, handU8 Hand.off) :=
  ⟨rfl, settings_changed_view_consistency emptyQueueClient staleWorldEntity
    7 Hand.off testSkinParts [] basePlayer rfl⟩

/-- C8: on a start-sneaking event the tracked pose becomes Sneaking only
from Standing and is unchanged otherwise; on a stop-sneaking event it
becomes Standing only from Sneaking and is unchanged otherwise. -/
theorem sneak_pose_transitions (c : ClientM) (e : EntityM) (p : PlayerData)
    (hp : e.data = TrackedData.player p) (rest : List ClientEvent) :
    playerPose (client_event_boilerplate
        { c with events := ClientEvent.startSneaking :: rest } e).2.2 =
      some (if p.pose = Pose.Standing then Pose.Sneaking else p.pose) ∧
    playerPose (client_event_boilerplate
        { c with events := ClientEvent.stopSneaking :: rest } e).2.2 =
      some (if p.pose = Pose.Sneaking then Pose.Standing else p.pose) := by
  constructor <;>
    · simp only [client_event_boilerplate, applyEvent, hp]
      split <;> simp [playerPose, playerPayload, hp]

/-- Witness for C8: a Standing player starts sneaking, and a Standing
player issued stop-sneaking keeps the Standing pose. -/
theorem sneak_pose_transitions_witness :
    staleWorldEntity.data = TrackedData.player basePlayer ∧
    playerPose (client_event_boilerplate
        { emptyQueueClient with events := ClientEvent.startSneaking :: [] }
        staleWorldEntity).2.2 =
      some (if basePlayer.pose = Pose.Standing then Pose.Sneaking
            else basePlayer.pose) ∧
    playerPose (client_event_boilerplate
        { emptyQueueClient with events := ClientEvent.stopSneaking :: [] }
        staleWorldEntity).2.2 =
      some (if basePlayer.pose = Pose.Sneaking then Pose.Standing
            else basePlayer.pose) :=
  ⟨rfl, sneak_pose_transitions emptyQueueClient staleWorldEntity basePlayer rfl []⟩

/-- C9: the base-direction sequence has length `n` (empty for `n = 0`)
and its `i`-th element equals the spec's closed-form low-discrepancy
mapping, a pure function of `(i, n)`. -/
theorem fibonacci_spiral_closed_form :
    (∀ n, (fibonacci_spiral n).length = n) ∧
    fibonacci_spiral 0 = [] ∧
    ∀ n i, i < n → (fibonacci_spiral n)[i]? = some (specBaseDirection i n) := by
  refine ⟨fun n => by simp [fibonacci_spiral], by simp [fibonacci_spiral],
    fun n i h => ?_⟩
  have h1 : (List.range n)[i]? = some i := List.getElem?_range h
  simp [fibonacci_spiral, List.getElem?_map, h1, spiralPoint,
    specBaseDirection, TAU]

/-- Witness for C9 at `n = 3`, `i = 1`. -/
theorem fibonacci_spiral_closed_form_witness :
    1 < 3 ∧ (fibonacci_spiral 3)[1]? = some (specBaseDirection 1 3) :=
  ⟨by norm_num, fibonacci_spiral_closed_form.2.2 3 1 (by norm_num)⟩

/-- C10: with zero connected clients the reference player position
defaults to the zero vector, so the eye position used for every
decorative entity's look-at is `(0, 1.6, 0)`, and the formation update
still produces one deterministic update per decorative entity. -/
theorem empty_clients_default_eye :
    eyePosOf [] = ((0 : ℝ), (1.6 : ℝ), (0 : ℝ)) ∧
    (∀ (cowIds : List ℕ) (t : ℝ),
      cowUpdates cowIds t (eyePosOf []) = cowUpdates cowIds t (0, 1.6, 0)) ∧
    ∀ (cowIds : List ℕ) (t : ℝ),
      (cowUpdates cowIds t (eyePosOf [])).length = cowIds.length := by
  have he : eyePosOf [] = ((0 : ℝ), (1.6 : ℝ), (0 : ℝ)) := by
    simp [eyePosOf]
  refine ⟨he, fun ids t => by rw [he], fun ids t => ?_⟩
  simp [cowUpdates, fibonacci_spiral]

end CowSphere
